import Mathlib

/-!
Verification of the resilient generation pipeline of the blog repository
(serverless endpoint variants in `src/api/generate.js` and `src/unnamed/part_000`
through `part_003`, front-end in `src/script.js` / `part_004`).

The shallow embedding below follows the hardened handler variant
(`src/unnamed/part_002`): `coerceOutput`, `buildPrompt`, the model
auto-discovery block and the main request handler, plus the fence-stripping
decode step shared by all variants.  JavaScript strings are modelled as Lean
`String`, with `trim` / `slice` re-implemented over the character list so that
their algebra is provable; `null`/`undefined`-able values are `Option`;
machine-level concerns (UTF-16 vs. code points) are out of scope.  Network and
environment nondeterminism is modelled by an explicit `World` oracle: each
outbound call's outcome is drawn from the oracle, and the handler records the
calls it makes, so that call-count and no-call properties are statable.
-/

/-! ## JavaScript string primitives -/

/-- Whitespace test used by `String.prototype.trim` and the `\s` regex class,
modelled by `Char.isWhitespace`. -/
def isWS (c : Char) : Bool := c.isWhitespace

/-- Left trim on character lists. -/
def trimLeftL (l : List Char) : List Char := l.dropWhile isWS

/-- Right trim on character lists. -/
def trimRightL (l : List Char) : List Char := (l.reverse.dropWhile isWS).reverse

/-- Both-ends trim on character lists. -/
def jsTrimL (l : List Char) : List Char := trimRightL (trimLeftL l)

/-- Model of JavaScript `s.trim()`. -/
def jsTrim (s : String) : String := ⟨jsTrimL s.data⟩

/-- Model of JavaScript `s.slice(0, n)`. -/
def jsSlice (n : Nat) (s : String) : String := ⟨s.data.take n⟩

/-- JavaScript truthiness for an optional string: `undefined` and `""` are
falsy.  `jsTruthy o` is `some s` exactly when `o` holds a non-empty string. -/
def jsTruthy (o : Option String) : Option String :=
  match o with
  | none => none
  | some s => if s = "" then none else some s

/-- Model of the JavaScript `a || b` chain on nullable strings: first truthy
value wins, otherwise `none`. -/
def jsOrStr (a b : Option String) : Option String :=
  match jsTruthy a with
  | some s => some s
  | none => jsTruthy b

/-- Model of `n || null` on a nullable number: `0` is falsy. -/
def jsOrNat (o : Option Nat) : Option Nat :=
  match o with
  | none => none
  | some n => if n = 0 then none else some n

/-- Substring occurrence on character lists (`pat` occurs somewhere in the
list), the semantics of an unanchored literal regex test. -/
def subListAt : List Char → List Char → Bool
  | pat, [] => pat.isPrefixOf ([] : List Char)
  | pat, c :: rest => pat.isPrefixOf (c :: rest) || subListAt pat rest

/-- Model of an unanchored literal-pattern regex test on a string. -/
def strContains (s pat : String) : Bool := subListAt pat.data s.data

/-! ## Data model (§3 of the spec) -/

/-- ResearchBrief entity: the five string fields of the `research` object. -/
structure Research where
  title : String
  introduction : String
  keyFindings : String
  conclusion : String
  source : String
  deriving DecidableEq

/-- ConceptCard entity. -/
structure ConceptCard where
  term : String
  definition : String
  deriving DecidableEq

/-- The `out` value built by `coerceOutput`. -/
structure Output where
  research : Research
  concepts : List ConceptCard
  deriving DecidableEq

/-- Raw candidate concept as decoded from provider JSON: both fields may be
absent (`c?.term ?? ''`). -/
structure CandConcept where
  term : Option String
  definition : Option String
  deriving DecidableEq

/-- Raw candidate research object: every field may be absent. -/
structure CandResearch where
  title : Option String
  introduction : Option String
  keyFindings : Option String
  conclusion : Option String
  source : Option String
  deriving DecidableEq

/-- Raw candidate value `ai` as decoded from the provider response; `research`
and `concepts` may each be absent or of the wrong shape (`Array.isArray`
failing is modelled by `none`). -/
structure Candidate where
  research : Option CandResearch
  concepts : Option (List CandConcept)
  deriving DecidableEq

/-- The empty candidate `{}` used by every error path (`coerceOutput({}, date)`). -/
def Candidate.empty : Candidate := ⟨none, none⟩

/-! ## Content Validator / Coercer (src/unnamed/part_002, lines 18-60) -/

/-- First stage of `coerceOutput`: build `out` by trimming every research
field (with the fixed `source` default), and truncating each of at most four
concepts (`slice(0,4)`, term `slice(0,160)`, definition `slice(0,1000)`). -/
def coerceRaw (ai : Candidate) : Output :=
  { research :=
      { title := jsTrim ((ai.research.bind CandResearch.title).getD "")
        introduction := jsTrim ((ai.research.bind CandResearch.introduction).getD "")
        keyFindings := jsTrim ((ai.research.bind CandResearch.keyFindings).getD "")
        conclusion := jsTrim ((ai.research.bind CandResearch.conclusion).getD "")
        source := jsTrim ((ai.research.bind CandResearch.source).getD "Cognitive psychology literature") }
    concepts :=
      match ai.concepts with
      | some cs =>
          (cs.take 4).map (fun c =>
            { term := jsSlice 160 (jsTrim (c.term.getD ""))
              definition := jsSlice 1000 (jsTrim (c.definition.getD "")) })
      | none => [] }

/-- Validity predicate `ok` of `coerceOutput` ("reasonable one-pager
minimums"). -/
def okCheck (o : Output) : Bool :=
  decide (10 ≤ o.research.title.length) &&
  decide (60 ≤ o.research.introduction.length) &&
  decide (100 ≤ o.research.keyFindings.length) &&
  decide (50 ≤ o.research.conclusion.length) &&
  decide (3 ≤ o.concepts.length) &&
  o.concepts.all (fun c => !(c.term == "") && decide (60 ≤ c.definition.length))

/-- The three fixed default concept cards of the hardened variant. -/
def defaultConcepts : List ConceptCard :=
  [ ⟨"Centeredness", "A stable, steady attentional state under changing conditions, built through brief, regular practice."⟩,
    ⟨"Interoception", "Awareness of internal body signals (breath, heartbeat, tension) that helps regulate attention and emotion."⟩,
    ⟨"Cognitive load", "How much working memory is in use; lowering it improves clarity and follow-through."⟩ ]

/-- Default-filling stage of `coerceOutput`: replace each *empty* research
field (except `source`) with its fixed default, and the concepts list with the
three default cards when it has fewer than three entries. -/
def applyDefaults (o : Output) (date : String) : Output :=
  { research :=
      { title := if o.research.title = "" then "Daily Brief — " ++ date else o.research.title
        introduction :=
          if o.research.introduction = "" then
            "This brief summarizes a practical idea for improving attention and centeredness in daily work."
          else o.research.introduction
        keyFindings :=
          if o.research.keyFindings = "" then
            "• Brief, regular practice compounds.\n• Labeling sensations reduces rumination.\n• Lowering cognitive load improves follow-through."
          else o.research.keyFindings
        conclusion :=
          if o.research.conclusion = "" then
            "Pick one small action and do it today. Consistency beats intensity."
          else o.research.conclusion
        source := o.research.source }
    concepts := if o.concepts.length < 3 then defaultConcepts else o.concepts }

/-- Validator + sensible defaults (`coerceOutput` of `part_002`): returns
`(out, ok)` where `ok` is the pre-substitution judgment. -/
def coerceOutput (ai : Candidate) (date : String) : Output × Bool :=
  let o := coerceRaw ai
  let ok := okCheck o
  (if ok then o else applyDefaults o date, ok)

/-- Injection of a coerced output back into a candidate value, for the
round-trip (idempotence) property `coerce(coerce(x).out) == coerce(x).out`. -/
def toCandidate (o : Output) : Candidate :=
  { research := some
      { title := some o.research.title
        introduction := some o.research.introduction
        keyFindings := some o.research.keyFindings
        conclusion := some o.research.conclusion
        source := some o.research.source }
    concepts := some (o.concepts.map (fun c => ⟨some c.term, some c.definition⟩)) }

namespace Part003

/-- Raw coercion stage of the `part_003` variant (lines 17-30): three
concepts, term `slice(0,160)`, definition `slice(0,900)`, `source` default
"General literature". -/
def coerceRaw (ai : Candidate) : Output :=
  { research :=
      { title := jsTrim ((ai.research.bind CandResearch.title).getD "")
        introduction := jsTrim ((ai.research.bind CandResearch.introduction).getD "")
        keyFindings := jsTrim ((ai.research.bind CandResearch.keyFindings).getD "")
        conclusion := jsTrim ((ai.research.bind CandResearch.conclusion).getD "")
        source := jsTrim ((ai.research.bind CandResearch.source).getD "General literature") }
    concepts :=
      match ai.concepts with
      | some cs =>
          (cs.take 3).map (fun c =>
            { term := jsSlice 160 (jsTrim (c.term.getD ""))
              definition := jsSlice 900 (jsTrim (c.definition.getD "")) })
      | none => [] }

/-- Validity guard of the `part_003` variant (looser minimums). -/
def okCheck (o : Output) : Bool :=
  decide (6 ≤ o.research.title.length) &&
  decide (40 ≤ o.research.introduction.length) &&
  decide (40 ≤ o.research.keyFindings.length) &&
  decide (20 ≤ o.research.conclusion.length) &&
  decide (3 ≤ o.concepts.length) &&
  o.concepts.all (fun c => !(c.term == "") && decide (40 ≤ c.definition.length))

/-- Coercer of the `part_003` variant (lines 17-57); it returns only `out`
(the `ok` bit is internal, and the default-filling block is the same as in
the hardened variant). -/
def coerceOutput (ai : Candidate) (date : String) : Output :=
  if okCheck (coerceRaw ai) then coerceRaw ai else applyDefaults (coerceRaw ai) date

end Part003

/-! ## Prompt Builder (src/unnamed/part_002, lines 63-107) -/

/-- Base prompt template of `buildPrompt` (the template literal, before
`.trim()`), with `date` and `userId` interpolated. -/
def basePromptRaw (date userId : String) : String :=
  "\nYou are a research assistant that creates daily one-pagers on psychology, CBT, and philosophy of inner work.\n\nYour task for "
  ++ date ++ " (user " ++ userId ++
  ") is to generate a unique research summary — as if the user asked,\n\"Teach me something meaningful about inner work or mental clarity today.\"\n\nGuidance:\n- Choose a fresh, specific topic randomly related to psychology, CBT, inner peace, or philosophy (different each day and may vary by user).\n- Be research-backed and practical; reference effects, mechanisms, or example studies when relevant.\n\nReturn ONLY valid JSON (no markdown/backticks) with EXACTLY this shape:\n\n\x7b\n  \"research\": \x7b\n    \"title\": string,          // short, specific, descriptive (e.g., \"Cognitive Defusion in Daily Stress Management\")\n    \"introduction\": string,   // 100–150 words explaining the topic and its relevance\n    \"keyFindings\": string,    // 150–250 words summarizing key findings, mechanisms, or example experiments (full sentences)\n    \"conclusion\": string,     // 80–120 words with one clear action + why it matters\n    \"source\": string          // a plausible citation label (e.g., \"Cognitive psychology literature, 2011–2024\")\n  \x7d,\n  \"concepts\": [\n    \x7b \"term\": string, \"definition\": string \x7d,  // 1–2 sentences (30–70 words)\n    \x7b \"term\": string, \"definition\": string \x7d,\n    \x7b \"term\": string, \"definition\": string \x7d,\n    \x7b \"term\": string, \"definition\": string \x7d\n  ]\n\x7d\n\nRules:\n- Output ONLY that JSON object, nothing else.\n- Avoid bullet characters; write full sentences in the fields.\n- Do NOT repeat the same text across fields.\n"

/-- Suffix appended for the stricter retry prompt (explicit minimums). -/
def strictSuffixRaw : String :=
  "\nMinimums that MUST be met:\n- introduction ≥ 100 words; keyFindings ≥ 150 words; conclusion ≥ 80 words.\n- 4 concepts present; each definition ≥ 30 words.\nOutput ONLY the JSON object. Ensure it parses with JSON.parse().\n"

/-- Prompt builder: `buildPrompt(date, userId, strict)`; deterministic in its
inputs, strict mode appends explicit minimum requirements. -/
def buildPrompt (date userId : String) (strict : Bool) : String :=
  let base := jsTrim (basePromptRaw date userId)
  if !strict then base else jsTrim (base ++ strictSuffixRaw)

/-! ## Response Decoder: fence stripping (part_002 lines 155-160) -/

/-- Lower-casing of a character list, for the case-insensitive fence regex. -/
def toLowerL (l : List Char) : List Char := l.map Char.toLower

/-- Model of `.replace(/^```json\s*/i, '')`: a case-insensitive leading
```json fence (with following whitespace) is stripped. -/
def stepJson (l : List Char) : List Char :=
  if toLowerL (l.take 7) = "```json".data then trimLeftL (l.drop 7) else l

/-- Model of `.replace(/^```\s*/i, '')`. -/
def stepBare (l : List Char) : List Char :=
  if l.take 3 = "```".data then trimLeftL (l.drop 3) else l

/-- Model of `.replace(/```$/, '')`: a trailing fence is stripped. -/
def stepClose (l : List Char) : List Char :=
  if l.reverse.take 3 = "```".data then (l.reverse.drop 3).reverse else l

/-- Fence-stripping pipeline on character lists, the model of
`text.trim().replace(/^```json\s*/i,'').replace(/^```\s*/i,'').replace(/```$/,'').trim()`. -/
def cleanFencesL (l : List Char) : List Char :=
  jsTrimL (stepClose (stepBare (stepJson (jsTrimL l))))

/-- Fence-stripping pipeline on strings (the Decoder's `extractJson`
pre-processing). -/
def cleanFences (s : String) : String := ⟨cleanFencesL s.data⟩

/-- The `"```json" + newline + t + newline + "```"` wrapping of a payload. -/
def fenceWrapJson (t : String) : String := "```json\n" ++ t ++ "\n```"

/-- The language-tag-free fence wrapping of a payload. -/
def fenceWrapBare (t : String) : String := "```\n" ++ t ++ "\n```"

/-! ## Model Selector (src/unnamed/part_002, lines 228-254) -/

/-- ModelDescriptor entity: one entry of the provider's model listing; each
field may be absent in malformed listings. -/
structure ModelDescriptor where
  name : Option String
  supportedGenerationMethods : Option (List String)
  supportedMethods : Option (List String)
  deriving DecidableEq

/-- Capability filter `supports`: the first present methods array
(`supportedGenerationMethods || supportedMethods || []`) must contain
`generateContent`. -/
def supportsGenerate (m : ModelDescriptor) : Bool :=
  let methods :=
    match m.supportedGenerationMethods with
    | some l => l
    | none => m.supportedMethods.getD []
  methods.contains "generateContent"

/-- The preferred family/tier name pattern
`/gemini-((2(\.5)?)|1\.5)-(flash|pro)/`, expanded into its six literal
alternatives (the regex is unanchored, so it is a substring test). -/
def preferredName (name : String) : Bool :=
  strContains name "gemini-2-flash" || strContains name "gemini-2.5-flash" ||
  strContains name "gemini-1.5-flash" || strContains name "gemini-2-pro" ||
  strContains name "gemini-2.5-pro" || strContains name "gemini-1.5-pro"

/-- Model of `.replace(/^models\//, '')` (prefix test and drop are taken on
the character list to keep them kernel-reducible). -/
def stripModels (s : String) : String :=
  if "models/".data.isPrefixOf s.data then ⟨s.data.drop 7⟩ else s

/-- The predicate building the `prefer` list: preferred name pattern plus
generation capability. -/
def preferFilter (m : ModelDescriptor) : Bool :=
  preferredName (m.name.getD "") && supportsGenerate m

/-- Model selector: preferred models first, then any generation-capable
model, first match wins; `""` when nothing usable was found. -/
def pickModel (models : List ModelDescriptor) : String :=
  stripModels ((jsOrStr ((models.filter preferFilter).head?.bind ModelDescriptor.name)
                        ((models.filter supportsGenerate).head?.bind ModelDescriptor.name)).getD "")

/-! ## Environment and transport (part_002, lines 174-223) -/

/-- The accepted provider-credential environment variables. -/
structure Env where
  GOOGLE_API_KEY : Option String
  GEMINI_API_KEY : Option String
  GOOGLE_GENAI_API_KEY : Option String
  GOOGLE_GENERATIVE_AI_API_KEY : Option String
  deriving DecidableEq

/-- Credential resolution: first truthy variable wins. -/
def resolveApiKey (e : Env) : Option String :=
  jsOrStr e.GOOGLE_API_KEY (jsOrStr e.GEMINI_API_KEY
    (jsOrStr e.GOOGLE_GENAI_API_KEY e.GOOGLE_GENERATIVE_AI_API_KEY))

/-- Name of the variable the credential came from (`keyName`). -/
def resolveKeyName (e : Env) : Option String :=
  match jsTruthy e.GOOGLE_API_KEY with
  | some _ => some "GOOGLE_API_KEY"
  | none =>
    match jsTruthy e.GEMINI_API_KEY with
    | some _ => some "GEMINI_API_KEY"
    | none =>
      match jsTruthy e.GOOGLE_GENAI_API_KEY with
      | some _ => some "GOOGLE_GENAI_API_KEY"
      | none =>
        match jsTruthy e.GOOGLE_GENERATIVE_AI_API_KEY with
        | some _ => some "GOOGLE_GENERATIVE_AI_API_KEY"
        | none => none

/-- The mock-mode guard `!apiKey || apiKey.length < 10`. -/
def noKeyB (k : Option String) : Bool :=
  match k with
  | none => true
  | some s => decide (s.length < 10)

/-- Inbound raw request body: empty, malformed JSON (kept under a `_raw`
sentinel by `readJsonBody`), or a parsed JSON object with the two consulted
fields. -/
inductive RawBody
  | empty
  | malformed (raw : String)
  | json (date : Option String) (userId : Option String)
  deriving DecidableEq

/-- Parsed request body as seen by the handler. -/
structure ReqBody where
  date : Option String
  userId : Option String
  deriving DecidableEq

/-- Model of `readJsonBody`: empty and malformed bodies both yield an object
with no `date`/`userId`, never a failure. -/
def readJsonBody : RawBody → ReqBody
  | .empty => ⟨none, none⟩
  | .malformed _ => ⟨none, none⟩
  | .json d u => ⟨d, u⟩

/-- Error thrown by `geminiGenerate`: its `String(err)` rendering plus the
optional `_status`, `_body` and `_sample` diagnostic fields. -/
structure GenError where
  errString : String
  status : Option Nat
  body : Option String
  sample : Option String
  deriving DecidableEq

/-- Oracle outcome of one `geminiGenerate` call: either a thrown error
(upstream non-success, wrapper parse, no text, inner parse, network) or a
successfully decoded candidate. -/
inductive GenOutcome
  | throw (e : GenError)
  | ok (ai : Candidate)
  deriving DecidableEq

/-- Oracle outcome of the model-listing stage: fetch exception, non-success
HTTP response, listing JSON parse failure, or a parsed listing (a missing or
non-array `models` field is the empty list). -/
inductive ListOutcome
  | fetchThrow (errString : String)
  | httpErr (status : Nat) (body : String)
  | parseThrow (errString : String)
  | parsed (models : List ModelDescriptor)
  deriving DecidableEq

/-- One request's world: the environment plus the oracle outcomes of the (at
most three) outbound calls, and today's date used when the body has none. -/
structure World where
  env : Env
  today : String
  listOut : ListOutcome
  gen1 : GenOutcome
  gen2 : GenOutcome
  deriving DecidableEq

/-- Outbound provider calls, recorded in order by the handler model. -/
inductive ProviderCall
  | listModels
  | generate (strict : Bool) (prompt : String)
  deriving DecidableEq

/-- The `debug` object of each terminal path (the constructor plays the role
of the `step` discriminator). -/
inductive Debug
  | mockDbg (hasKey : Bool) (keyName : Option String) (userIdPreview : String)
  | listModelsDbg (error : String) (hasKey : Bool) (keyName : Option String)
  | successDbg (hasKey : Bool) (keyName : Option String) (pickedModel : String) (validated : Bool)
  | generateDbg (pickedModel : String) (error : String) (status : Option Nat) (bodySample : Option String)
  deriving DecidableEq

/-- JSON body of a POST response: `{ status, research, concepts, debug }`. -/
structure PostBody where
  status : String
  research : Research
  concepts : List ConceptCard
  debug : Debug
  deriving DecidableEq

/-- Terminal responses of the handler across all methods. -/
inductive HandlerResponse
  | optionsEnd
  | getDiag (hasKey : Bool) (keyName : Option String)
  | methodErr
  | post (body : PostBody)
  deriving DecidableEq

/-- A finished request: HTTP status code, response, and the outbound provider
calls made along the way. -/
structure HandlerRes where
  httpStatus : Nat
  response : HandlerResponse
  calls : List ProviderCall
  deriving DecidableEq

/-- The `listModels`-stage catch: fallback body from the empty candidate with
`debug.step = 'listModels'`. -/
def listFallback (date : String) (keyName : Option String) (err : String) : HandlerRes :=
  ⟨200, .post ⟨"fallback", (coerceOutput Candidate.empty date).1.research,
      (coerceOutput Candidate.empty date).1.concepts, .listModelsDbg err true keyName⟩,
   [.listModels]⟩

/-- The generate-stage catch: fallback body from the empty candidate with
`debug.step = 'generate'` diagnostics. -/
def genCatch (date picked : String) (e : GenError) (calls : List ProviderCall) : HandlerRes :=
  ⟨200, .post ⟨"fallback", (coerceOutput Candidate.empty date).1.research,
      (coerceOutput Candidate.empty date).1.concepts,
      .generateDbg picked e.errString (jsOrNat e.status) (jsOrStr e.body e.sample)⟩,
   calls⟩

/-- First-attempt calls: the model listing plus the base-prompt generate. -/
def calls1 (date userId : String) : List ProviderCall :=
  [.listModels, .generate false (buildPrompt date userId false)]

/-- Both-attempt calls: `calls1` plus the strict-prompt retry. -/
def calls2 (date userId : String) : List ProviderCall :=
  calls1 date userId ++ [.generate true (buildPrompt date userId true)]

/-- Generate-validate-retry phase (part_002 lines 256-285): first attempt with
the base prompt; when its coercion is invalid, exactly one retry with the
strict prompt, whose result is terminal. -/
def genPhase (w : World) (date userId : String) (keyName : Option String) (picked : String) : HandlerRes :=
  match w.gen1 with
  | .throw e => genCatch date picked e (calls1 date userId)
  | .ok ai =>
    if (coerceOutput ai date).2 then
      ⟨200, .post ⟨"ok", (coerceOutput ai date).1.research, (coerceOutput ai date).1.concepts,
          .successDbg true keyName picked true⟩, calls1 date userId⟩
    else
      match w.gen2 with
      | .throw e => genCatch date picked e (calls2 date userId)
      | .ok ai2 =>
        ⟨200, .post ⟨if (coerceOutput ai2 date).2 then "ok" else "fallback",
            (coerceOutput ai2 date).1.research, (coerceOutput ai2 date).1.concepts,
            .successDbg true keyName picked (coerceOutput ai2 date).2⟩, calls2 date userId⟩

/-- POST flow after the `date` and `userId` defaults are resolved: mock
short-circuit, model listing and pick, then the generate phase. -/
def handlePostDated (w : World) (date userId : String) : HandlerRes :=
  if noKeyB (resolveApiKey w.env) then
    ⟨200, .post ⟨"mock", (coerceOutput Candidate.empty date).1.research,
        (coerceOutput Candidate.empty date).1.concepts,
        .mockDbg false (resolveKeyName w.env) (jsSlice 16 userId)⟩, []⟩
  else
    match w.listOut with
    | .fetchThrow msg => listFallback date (resolveKeyName w.env) msg
    | .httpErr st bodyText =>
        listFallback date (resolveKeyName w.env)
          ("Error: listModels " ++ toString st ++ ": " ++ jsSlice 300 bodyText)
    | .parseThrow msg => listFallback date (resolveKeyName w.env) msg
    | .parsed models =>
      if pickModel models = "" then
        listFallback date (resolveKeyName w.env)
          "Error: No model with generateContent available to this key."
      else genPhase w date userId (resolveKeyName w.env) (pickModel models)

/-- POST flow of the hardened handler: body parse (with its empty-body and
explicit-date defaults), then the dated flow. -/
def handlePost (w : World) (raw : RawBody) : HandlerRes :=
  handlePostDated w ((jsTruthy (readJsonBody raw).date).getD w.today)
    ((jsTruthy (readJsonBody raw).userId).getD "anon")

/-- The hardened handler (part_002 lines 174-286): OPTIONS pre-flight, GET
diagnostics, soft method gating, then the POST flow. -/
def handler (w : World) (method : String) (raw : RawBody) : HandlerRes :=
  if method = "OPTIONS" then ⟨200, .optionsEnd, []⟩
  else if method = "GET" then ⟨200, .getDiag (resolveApiKey w.env).isSome (resolveKeyName w.env), []⟩
  else if method ≠ "POST" then ⟨200, .methodErr, []⟩
  else handlePost w raw

/-! ## Supporting lemmas: trim algebra and small helpers -/

/-- The backtick character, written by code point. -/
def backtickChar : Char := Char.ofNat 96

theorem dropWhile_idem (p : α → Bool) (l : List α) :
    (l.dropWhile p).dropWhile p = l.dropWhile p := by
  cases h : l.dropWhile p with
  | nil => simp
  | cons c r =>
    have hc : p c = false := by
      have hw : l.dropWhile p ≠ [] := by simp [h]
      have := List.head_dropWhile_not p l hw
      simpa [h] using this
    simp [List.dropWhile_cons_of_neg, hc]

theorem trimLeftL_idem (l : List Char) : trimLeftL (trimLeftL l) = trimLeftL l :=
  dropWhile_idem isWS l

theorem trimRightL_idem (l : List Char) : trimRightL (trimRightL l) = trimRightL l := by
  unfold trimRightL
  rw [List.reverse_reverse, dropWhile_idem]

theorem trimRightL_isPrefix (l : List Char) : trimRightL l <+: l := by
  have h1 : l.reverse.dropWhile isWS <:+ l.reverse := List.dropWhile_suffix isWS
  have h2 : (l.reverse.dropWhile isWS).reverse <+: l.reverse.reverse :=
    List.reverse_prefix.mpr h1
  simpa [trimRightL] using h2

theorem trimLeftL_trimRightL_of_trimmed (l : List Char) (h : trimLeftL l = l) :
    trimLeftL (trimRightL l) = trimRightL l := by
  cases hr : trimRightL l with
  | nil => simp [trimLeftL]
  | cons c r =>
    have hpre : (c :: r) <+: l := hr ▸ trimRightL_isPrefix l
    obtain ⟨t, ht⟩ := hpre
    have hl : l = c :: (r ++ t) := by rw [← ht]; simp
    have hc : isWS c = false := by
      by_contra hcc
      have hcs : isWS c = true := by simpa using hcc
      rw [hl] at h
      unfold trimLeftL at h
      rw [List.dropWhile_cons_of_pos hcs] at h
      have hlen := congrArg List.length h
      have hle : ((r ++ t).dropWhile isWS).length ≤ (r ++ t).length :=
        (List.dropWhile_sublist isWS).length_le
      simp [List.length_append] at hlen hle
      omega
    unfold trimLeftL
    rw [List.dropWhile_cons_of_neg (by simp [hc])]

theorem jsTrimL_idem (l : List Char) : jsTrimL (jsTrimL l) = jsTrimL l := by
  unfold jsTrimL
  rw [trimLeftL_trimRightL_of_trimmed (trimLeftL l) (trimLeftL_idem l), trimRightL_idem]

theorem jsTrim_idem (s : String) : jsTrim (jsTrim s) = jsTrim s := by
  simp only [jsTrim]
  exact congrArg String.mk (jsTrimL_idem s.data)

theorem dropWhile_append_of_ne_nil {p : α → Bool} {a b : List α} (h : a.dropWhile p ≠ []) :
    (a ++ b).dropWhile p = a.dropWhile p ++ b := by
  rw [List.dropWhile_append]
  simp [List.isEmpty_iff, h]

theorem map_eq_self_of {α : Type} {f : α → α} :
    ∀ (l : List α), (∀ a ∈ l, f a = a) → l.map f = l
  | [], _ => rfl
  | a :: l, h => by
    simp only [List.map_cons]
    rw [h a (by simp), map_eq_self_of l (fun x hx => h x (by simp [hx]))]

theorem str_ne_empty_of_one_le {s : String} (h : 1 ≤ s.length) : s ≠ "" := by
  intro e
  subst e
  exact absurd h (by decide)

theorem jsSlice_length_le (n : Nat) (s : String) : (jsSlice n s).length ≤ n := by
  have : (jsSlice n s).length = (s.data.take n).length := rfl
  rw [this, List.length_take]
  omega

theorem jsSlice_of_length_le {n : Nat} {s : String} (h : s.length ≤ n) : jsSlice n s = s := by
  have hd : s.data.length ≤ n := h
  unfold jsSlice
  rw [List.take_of_length_le hd]

theorem mk_data (s : String) : String.mk s.data = s := by
  cases s
  rfl

/-- Reduction of the hardened handler at method POST. -/
theorem handler_post (w : World) (raw : RawBody) :
    handler w "POST" raw = handlePost w raw := rfl

/-! ## Shape of coerced output -/

/-- Default filling always leaves the four guarded research fields non-empty
and at least three concepts. -/
theorem applyDefaults_shape (o : Output) (date : String) :
    (applyDefaults o date).research.title ≠ "" ∧
    (applyDefaults o date).research.introduction ≠ "" ∧
    (applyDefaults o date).research.keyFindings ≠ "" ∧
    (applyDefaults o date).research.conclusion ≠ "" ∧
    3 ≤ (applyDefaults o date).concepts.length := by
  obtain ⟨⟨t, i, k, c, s⟩, cs⟩ := o
  dsimp only [applyDefaults]
  refine ⟨?_, ?_, ?_, ?_, ?_⟩
  · split
    · apply str_ne_empty_of_one_le
      rw [String.length_append]
      have h14 : 1 ≤ ("Daily Brief — " : String).length := by decide
      omega
    · assumption
  · split
    · decide
    · assumption
  · split
    · decide
    · assumption
  · split
    · decide
    · assumption
  · split
    · decide
    · omega

/-- On every input the hardened coercer yields a non-empty title,
introduction, keyFindings and conclusion, and at least three concepts
(the `source` field and concept definitions are *not* covered: they can
legitimately come out empty). -/
theorem coerce_minshape (ai : Candidate) (date : String) :
    (coerceOutput ai date).1.research.title ≠ "" ∧
    (coerceOutput ai date).1.research.introduction ≠ "" ∧
    (coerceOutput ai date).1.research.keyFindings ≠ "" ∧
    (coerceOutput ai date).1.research.conclusion ≠ "" ∧
    3 ≤ (coerceOutput ai date).1.concepts.length := by
  unfold coerceOutput
  by_cases h : okCheck (coerceRaw ai) = true
  · simp only [h, if_true]
    unfold okCheck at h
    simp only [Bool.and_eq_true, decide_eq_true_eq] at h
    obtain ⟨⟨⟨⟨⟨h10, h60⟩, h100⟩, h50⟩, h3⟩, -⟩ := h
    exact ⟨str_ne_empty_of_one_le (by omega), str_ne_empty_of_one_le (by omega),
      str_ne_empty_of_one_le (by omega), str_ne_empty_of_one_le (by omega), h3⟩
  · simp only [h, if_false]
    exact applyDefaults_shape (coerceRaw ai) date

/-! ## Claim C1 -/

/-- Minimum shape actually guaranteed by every POST path: four non-empty
research fields and at least three concepts. -/
def MinShape (pb : PostBody) : Prop :=
  pb.research.title ≠ "" ∧ pb.research.introduction ≠ "" ∧
  pb.research.keyFindings ≠ "" ∧ pb.research.conclusion ≠ "" ∧
  3 ≤ pb.concepts.length

/-- Accessor: the `research.source` field of a POST response. -/
def respSource (r : HandlerRes) : Option String :=
  match r.response with
  | HandlerResponse.post pb => some pb.research.source
  | _ => none

/-- Accessor: the concept definitions of a POST response. -/
def respDefinitions (r : HandlerRes) : Option (List String) :=
  match r.response with
  | HandlerResponse.post pb => some (pb.concepts.map ConceptCard.definition)
  | _ => none

/-- A candidate that decodes fine but under-validates: whitespace `source`,
three concepts with blank definitions, all other fields long enough. -/
def c1BadCand : Candidate :=
  ⟨some ⟨some (String.mk (List.replicate 12 't')), some (String.mk (List.replicate 60 'i')),
      some (String.mk (List.replicate 100 'k')), some (String.mk (List.replicate 50 'c')), some " "⟩,
   some [⟨some "a", some ""⟩, ⟨some "b", some ""⟩, ⟨some "c", some ""⟩]⟩

/-- A world with a usable credential and model where both generation attempts
return `c1BadCand`. -/
def c1World : World :=
  ⟨⟨some "0123456789", none, none, none⟩, "2025-01-01",
   ListOutcome.parsed [⟨some "models/gemini-1.5-flash", some ["generateContent"], none⟩],
   GenOutcome.ok c1BadCand, GenOutcome.ok c1BadCand⟩

/-- C1 (counterexample): the claim "the five research fields are all
non-empty strings and concepts ... with non-empty definitions" fails on a
concrete POST request: when the provider candidate carries a whitespace-only
`source` and three concepts with blank definitions, the final response has
`research.source = ""` and all three concept definitions empty. -/
theorem c1_counterexample :
    respSource (handler c1World "POST" RawBody.empty) = some "" ∧
    respDefinitions (handler c1World "POST" RawBody.empty) = some ["", "", ""] := by
  decide

/-- C1 (amended): for every inbound request (any oracle world, any raw body,
including empty and malformed JSON bodies, and every error path), the
hardened generation handler's POST response has non-empty `title`,
`introduction`, `keyFindings` and `conclusion` and at least three concepts;
the `source` field and the concept definitions, however, may be empty
strings. -/
theorem c1_minshape_all_paths : ∀ (w : World) (raw : RawBody),
    ∃ pb, (handler w "POST" raw).response = HandlerResponse.post pb ∧ MinShape pb := by
  intro w raw
  rw [handler_post]
  unfold handlePost handlePostDated
  split
  · exact ⟨_, rfl, coerce_minshape _ _⟩
  · cases w.listOut with
    | fetchThrow m => exact ⟨_, rfl, coerce_minshape _ _⟩
    | httpErr st b => exact ⟨_, rfl, coerce_minshape _ _⟩
    | parseThrow m => exact ⟨_, rfl, coerce_minshape _ _⟩
    | parsed ms =>
      dsimp only
      split
      · exact ⟨_, rfl, coerce_minshape _ _⟩
      · unfold genPhase
        cases w.gen1 with
        | throw e => exact ⟨_, rfl, coerce_minshape _ _⟩
        | ok ai =>
          dsimp only
          split
          · exact ⟨_, rfl, coerce_minshape _ _⟩
          · cases w.gen2 with
            | throw e => exact ⟨_, rfl, coerce_minshape _ _⟩
            | ok ai2 => exact ⟨_, rfl, coerce_minshape _ _⟩

/-! ## Claim C2 -/

/-- The three success-shaped status values of the hardened contract. -/
def goodStatus (s : String) : Prop := s = "ok" ∨ s = "mock" ∨ s = "fallback"

/-- C2 (confirmed): in the hardened handler, every POST request terminates
with HTTP status 200 and a success-shaped JSON body whose `status` field is
one of `ok`, `mock`, `fallback`, for every oracle world (missing credential,
model-listing failure, upstream error, network exception, parse failure,
validation failure included). -/
theorem c2_uniform_success : ∀ (w : World) (raw : RawBody),
    (handler w "POST" raw).httpStatus = 200 ∧
    ∃ pb, (handler w "POST" raw).response = HandlerResponse.post pb ∧
      goodStatus pb.status := by
  intro w raw
  rw [handler_post]
  unfold handlePost handlePostDated
  split
  · exact ⟨rfl, _, rfl, Or.inr (Or.inl rfl)⟩
  · cases w.listOut with
    | fetchThrow m => exact ⟨rfl, _, rfl, Or.inr (Or.inr rfl)⟩
    | httpErr st b => exact ⟨rfl, _, rfl, Or.inr (Or.inr rfl)⟩
    | parseThrow m => exact ⟨rfl, _, rfl, Or.inr (Or.inr rfl)⟩
    | parsed ms =>
      dsimp only
      split
      · exact ⟨rfl, _, rfl, Or.inr (Or.inr rfl)⟩
      · unfold genPhase
        cases w.gen1 with
        | throw e => exact ⟨rfl, _, rfl, Or.inr (Or.inr rfl)⟩
        | ok ai =>
          dsimp only
          split
          · exact ⟨rfl, _, rfl, Or.inl rfl⟩
          · cases w.gen2 with
            | throw e => exact ⟨rfl, _, rfl, Or.inr (Or.inr rfl)⟩
            | ok ai2 =>
              refine ⟨rfl, _, rfl, ?_⟩
              unfold goodStatus
              split
              · exact Or.inl rfl
              · exact Or.inr (Or.inr rfl)

/-! ## Claim C3 -/

/-- C3 (confirmed): on every POST request arriving with no usable credential
(no accepted variable set, or a value shorter than 10 characters), the
handler answers `status = "mock"` and performs no outbound provider call at
all. -/
theorem c3_no_credential_mock : ∀ (w : World) (raw : RawBody),
    noKeyB (resolveApiKey w.env) = true →
    ∃ pb, (handler w "POST" raw).response = HandlerResponse.post pb ∧
      pb.status = "mock" ∧ (handler w "POST" raw).calls = [] := by
  intro w raw h
  rw [handler_post]
  unfold handlePost handlePostDated
  rw [if_pos h]
  exact ⟨_, rfl, rfl, rfl⟩

/-- Witness for C3 at a concrete empty environment and empty body. -/
theorem c3_witness :
    noKeyB (resolveApiKey ⟨none, none, none, none⟩) = true ∧
    (∃ pb, (handler ⟨⟨none, none, none, none⟩, "2025-01-01", ListOutcome.parsed [],
        GenOutcome.ok Candidate.empty, GenOutcome.ok Candidate.empty⟩ "POST" RawBody.empty).response =
        HandlerResponse.post pb ∧ pb.status = "mock" ∧
      (handler ⟨⟨none, none, none, none⟩, "2025-01-01", ListOutcome.parsed [],
        GenOutcome.ok Candidate.empty, GenOutcome.ok Candidate.empty⟩ "POST" RawBody.empty).calls = []) :=
  ⟨by decide, c3_no_credential_mock _ RawBody.empty (by decide)⟩

/-! ## Claim C10 -/

/-- C10 (confirmed): the no-credential mock path is deterministic, as a
two-run hyperproperty: two POST requests with the same body carrying an
explicit date, against the same credential-less environment, produce
identical responses (research text, concept cards, status and debug fields)
even when everything else about the two worlds (today's date, provider
oracle outcomes) differs. -/
theorem c10_mock_deterministic :
    ∀ (e : Env) (t1 t2 : String) (lo1 lo2 : ListOutcome) (g1 g2 g3 g4 : GenOutcome)
      (d : String) (u : Option String),
      noKeyB (resolveApiKey e) = true → d ≠ "" →
      handler ⟨e, t1, lo1, g1, g2⟩ "POST" (RawBody.json (some d) u) =
        handler ⟨e, t2, lo2, g3, g4⟩ "POST" (RawBody.json (some d) u) := by
  intro e t1 t2 lo1 lo2 g1 g2 g3 g4 d u hk hd
  rw [handler_post, handler_post]
  simp [handlePost, handlePostDated, readJsonBody, jsTruthy, hk, hd]

/-- Witness for C10: two concrete worlds differing in today's date and oracle
outcomes but sharing the key-less environment give the same response. -/
theorem c10_witness :
    handler ⟨⟨none, none, none, none⟩, "2025-01-01", ListOutcome.parsed [],
        GenOutcome.ok Candidate.empty, GenOutcome.ok Candidate.empty⟩ "POST"
        (RawBody.json (some "2025-03-04") (some "u1")) =
      handler ⟨⟨none, none, none, none⟩, "2099-12-31", ListOutcome.fetchThrow "TypeError: fetch failed",
        GenOutcome.throw ⟨"Error: no-text", none, none, none⟩, GenOutcome.ok Candidate.empty⟩ "POST"
        (RawBody.json (some "2025-03-04") (some "u1")) :=
  c10_mock_deterministic ⟨none, none, none, none⟩ "2025-01-01" "2099-12-31"
    (ListOutcome.parsed []) (ListOutcome.fetchThrow "TypeError: fetch failed")
    (GenOutcome.ok Candidate.empty) (GenOutcome.ok Candidate.empty)
    (GenOutcome.throw ⟨"Error: no-text", none, none, none⟩) (GenOutcome.ok Candidate.empty)
    "2025-03-04" (some "u1") (by decide) (by decide)

/-! ## Claim C4 -/

/-- Test for a generate-content call in the call trace. -/
def isGenCall : ProviderCall → Bool
  | .generate _ _ => true
  | .listModels => false

/-- Number of generate-content calls a finished request made. -/
def genCallCount (r : HandlerRes) : Nat := r.calls.countP isGenCall

/-- C4 (confirmed): (a) every request, whatever the method and world, makes
at most two generate-content calls; (b) once the generation stage is reached,
a first attempt that decodes and validates makes exactly one generate call
with the base prompt, while a first attempt that decodes but fails the
validity predicate is followed by exactly one retry whose prompt is rebuilt
with `strict = true` — and that second attempt is terminal whatever its own
outcome (`w.gen2` is universally quantified). -/
theorem c4_retry_discipline :
    (∀ (w : World) (method : String) (raw : RawBody),
      genCallCount (handler w method raw) ≤ 2) ∧
    (∀ (w : World) (raw : RawBody) (ai : Candidate) (ms : List ModelDescriptor),
      noKeyB (resolveApiKey w.env) = false →
      w.listOut = ListOutcome.parsed ms →
      pickModel ms ≠ "" →
      w.gen1 = GenOutcome.ok ai →
      ∀ date userId : String,
        date = (jsTruthy (readJsonBody raw).date).getD w.today →
        userId = (jsTruthy (readJsonBody raw).userId).getD "anon" →
        (((coerceOutput ai date).2 = true →
            (handler w "POST" raw).calls =
              [ProviderCall.listModels, ProviderCall.generate false (buildPrompt date userId false)]) ∧
         ((coerceOutput ai date).2 = false →
            (handler w "POST" raw).calls =
              [ProviderCall.listModels, ProviderCall.generate false (buildPrompt date userId false),
               ProviderCall.generate true (buildPrompt date userId true)]))) := by
  constructor
  · intro w method raw
    unfold handler handlePost handlePostDated genPhase
    repeat' split
    all_goals first
      | exact (by decide : (0 : Nat) ≤ 2)
      | exact (by decide : (1 : Nat) ≤ 2)
      | exact (by decide : (2 : Nat) ≤ 2)
  · intro w raw ai ms hk hlo hpick hgen date userId hd hu
    subst hd
    subst hu
    rw [handler_post]
    unfold handlePost handlePostDated genPhase
    simp only [hlo, hgen, hk, Bool.false_eq_true, if_false]
    rw [if_neg hpick]
    constructor
    · intro hv
      rw [if_pos hv]
      rfl
    · intro hv
      rw [if_neg (by simp [hv])]
      cases w.gen2 with
      | throw e => rfl
      | ok ai2 => rfl

/-- A candidate that passes the validity predicate outright. -/
def c4GoodCand : Candidate :=
  ⟨some ⟨some (String.mk (List.replicate 12 't')), some (String.mk (List.replicate 60 'i')),
      some (String.mk (List.replicate 100 'k')), some (String.mk (List.replicate 50 'c')), some "Src"⟩,
   some [⟨some "a", some (String.mk (List.replicate 60 'd'))⟩,
         ⟨some "b", some (String.mk (List.replicate 60 'd'))⟩,
         ⟨some "c", some (String.mk (List.replicate 60 'd'))⟩]⟩

/-- A world whose first generation attempt decodes and validates. -/
def c4World : World :=
  ⟨⟨some "0123456789", none, none, none⟩, "2025-01-01",
   ListOutcome.parsed [⟨some "models/gemini-1.5-flash", some ["generateContent"], none⟩],
   GenOutcome.ok c4GoodCand, GenOutcome.ok c4GoodCand⟩

/-- Witness for C4: a concrete valid first attempt makes exactly one generate
call (and respects the global two-call bound). -/
theorem c4_witness :
    genCallCount (handler c4World "POST" RawBody.empty) ≤ 2 ∧
    (handler c4World "POST" RawBody.empty).calls =
      [ProviderCall.listModels, ProviderCall.generate false (buildPrompt "2025-01-01" "anon" false)] :=
  ⟨c4_retry_discipline.1 c4World "POST" RawBody.empty,
   (c4_retry_discipline.2 c4World RawBody.empty c4GoodCand
      [⟨some "models/gemini-1.5-flash", some ["generateContent"], none⟩]
      (by decide) rfl (by decide) rfl "2025-01-01" "anon" rfl rfl).1 (by decide)⟩

/-! ## Claim C8 -/

/-- A model passing the preferred filter carries a non-empty name (the
pattern cannot match the empty string). -/
theorem preferFilter_name_some {m : ModelDescriptor} (h : preferFilter m = true) :
    ∃ n, m.name = some n ∧ n ≠ "" := by
  cases hm : m.name with
  | none =>
    unfold preferFilter at h
    rw [hm] at h
    simp only [Bool.and_eq_true] at h
    exact absurd h.1 (by decide)
  | some n =>
    refine ⟨n, rfl, ?_⟩
    intro he
    subst he
    unfold preferFilter at h
    rw [hm] at h
    simp only [Bool.and_eq_true] at h
    exact absurd h.1 (by decide)

/-- C8 (amended): the selector picks the first model passing the preferred
filter (preferred name pattern *and* `generateContent` support); only when no
model passes that combined filter does it pick the first generation-capable
model (whose listed name must be non-empty to be usable); the choice is a
pure function of the listed models. -/
theorem c8_selector_first_match :
    (∀ (ms : List ModelDescriptor) (m : ModelDescriptor) (rest : List ModelDescriptor),
      ms.filter preferFilter = m :: rest →
      ∃ n, m.name = some n ∧ pickModel ms = stripModels n) ∧
    (∀ (ms : List ModelDescriptor) (m : ModelDescriptor) (rest : List ModelDescriptor) (n : String),
      ms.filter preferFilter = [] →
      ms.filter supportsGenerate = m :: rest →
      m.name = some n → n ≠ "" →
      pickModel ms = stripModels n) := by
  constructor
  · intro ms m rest hf
    have hmem : m ∈ ms.filter preferFilter := by
      rw [hf]
      exact List.mem_cons_self m rest
    have hm : preferFilter m = true := (List.mem_filter.mp hmem).2
    obtain ⟨n, hn, hne⟩ := preferFilter_name_some hm
    refine ⟨n, hn, ?_⟩
    unfold pickModel
    rw [hf]
    simp [jsOrStr, jsTruthy, hn, hne]
  · intro ms m rest n hfp hfg hn hne
    unfold pickModel
    rw [hfp, hfg]
    simp [jsOrStr, jsTruthy, hn, hne]

/-- C8 (counterexample): the claim as stated says the fallback to the first
generation-capable model happens "only if no model matches the preferred
pattern"; here the first model *does* match the preferred pattern (but lacks
`generateContent`), and the selector nevertheless picks the first
generation-capable model. -/
theorem c8_counterexample :
    preferredName ((ModelDescriptor.mk (some "models/gemini-1.5-flash") (some []) none).name.getD "") = true ∧
    supportsGenerate (ModelDescriptor.mk (some "models/gemini-1.5-flash") (some []) none) = false ∧
    pickModel [⟨some "models/gemini-1.5-flash", some [], none⟩,
               ⟨some "models/other-model", some ["generateContent"], none⟩] = "other-model" ∧
    (ModelDescriptor.mk (some "models/other-model") (some ["generateContent"]) none).name = some "models/other-model" ∧
    stripModels "models/other-model" = "other-model" := by
  decide

/-- Witness for C8 at two concrete one-model listings. -/
theorem c8_witness :
    (∃ n, (ModelDescriptor.mk (some "models/gemini-1.5-flash") (some ["generateContent"]) none).name = some n ∧
      pickModel [⟨some "models/gemini-1.5-flash", some ["generateContent"], none⟩] = stripModels n) ∧
    pickModel [⟨some "plain-model", some ["generateContent"], none⟩] = stripModels "plain-model" :=
  ⟨c8_selector_first_match.1 [⟨some "models/gemini-1.5-flash", some ["generateContent"], none⟩]
      ⟨some "models/gemini-1.5-flash", some ["generateContent"], none⟩ [] (by decide),
   c8_selector_first_match.2 [⟨some "plain-model", some ["generateContent"], none⟩]
      ⟨some "plain-model", some ["generateContent"], none⟩ [] "plain-model"
      (by decide) (by decide) rfl (by decide)⟩

/-! ## Claim C6 -/

/-- Every concept produced by the trim-and-slice map obeys the length
bounds. -/
theorem mapped_concepts_bound (cs : List CandConcept) (k n : Nat) :
    ∀ c ∈ (cs.take k).map (fun c =>
        ConceptCard.mk (jsSlice 160 (jsTrim (c.term.getD "")))
          (jsSlice n (jsTrim (c.definition.getD "")))),
      c.term.length ≤ 160 ∧ c.definition.length ≤ n := by
  intro c hc
  obtain ⟨a, -, rfl⟩ := List.mem_map.mp hc
  exact ⟨jsSlice_length_le _ _, jsSlice_length_le _ _⟩

/-- Concept bounds for the raw coercion stage of the hardened variant. -/
theorem coerceRaw_concept_bound (ai : Candidate) :
    ∀ c ∈ (coerceRaw ai).concepts, c.term.length ≤ 160 ∧ c.definition.length ≤ 1000 := by
  intro c hc
  unfold coerceRaw at hc
  dsimp only at hc
  cases hai : ai.concepts with
  | none =>
    rw [hai] at hc
    simp at hc
  | some cs =>
    rw [hai] at hc
    exact mapped_concepts_bound cs 4 1000 c hc

/-- Concept bounds for the raw coercion stage of the `part_003` variant. -/
theorem part003_coerceRaw_concept_bound (ai : Candidate) :
    ∀ c ∈ (Part003.coerceRaw ai).concepts, c.term.length ≤ 160 ∧ c.definition.length ≤ 900 := by
  intro c hc
  unfold Part003.coerceRaw at hc
  dsimp only at hc
  cases hai : ai.concepts with
  | none =>
    rw [hai] at hc
    simp at hc
  | some cs =>
    rw [hai] at hc
    exact mapped_concepts_bound cs 3 900 c hc

/-- The default-filling stage either keeps the concepts or installs the three
fixed cards. -/
theorem applyDefaults_concepts_cases (o : Output) (date : String) :
    (applyDefaults o date).concepts = defaultConcepts ∨
    (applyDefaults o date).concepts = o.concepts := by
  obtain ⟨⟨t, i, k, c, s⟩, cs⟩ := o
  dsimp only [applyDefaults]
  split
  · exact Or.inl rfl
  · exact Or.inr rfl

/-- C6 (amended): the coercion trims and truncates the *concept* fields —
term to at most 160 characters and definition to at most 1000 characters in
the hardened variant (900 in the `part_003` variant) — on every input and on
every path, defaults included.  (The research title, contrary to the claim,
is not truncated: see the counterexample.) -/
theorem c6_truncation_bounds :
    (∀ (ai : Candidate) (date : String), ∀ c ∈ (coerceOutput ai date).1.concepts,
      c.term.length ≤ 160 ∧ c.definition.length ≤ 1000) ∧
    (∀ (ai : Candidate) (date : String), ∀ c ∈ (Part003.coerceOutput ai date).concepts,
      c.term.length ≤ 160 ∧ c.definition.length ≤ 900) := by
  constructor
  · intro ai date c hc
    unfold coerceOutput at hc
    by_cases h : okCheck (coerceRaw ai) = true
    · simp only [h, if_true] at hc
      exact coerceRaw_concept_bound ai c hc
    · simp only [h, Bool.false_eq_true, if_false] at hc
      rcases applyDefaults_concepts_cases (coerceRaw ai) date with hd | hd
      · rw [hd] at hc
        revert c
        decide
      · rw [hd] at hc
        exact coerceRaw_concept_bound ai c hc
  · intro ai date c hc
    unfold Part003.coerceOutput at hc
    by_cases h : Part003.okCheck (Part003.coerceRaw ai) = true
    · simp only [h, if_true] at hc
      exact part003_coerceRaw_concept_bound ai c hc
    · simp only [h, Bool.false_eq_true, if_false] at hc
      rcases applyDefaults_concepts_cases (Part003.coerceRaw ai) date with hd | hd
      · rw [hd] at hc
        revert c
        decide
      · rw [hd] at hc
        exact part003_coerceRaw_concept_bound ai c hc

set_option maxRecDepth 4000 in
/-- C6 (counterexample): the research *title* is not truncated to 160
characters — a 200-character title survives coercion unchanged in length, so
"the research title is at most 160 characters" is false; the 160-character
bound applies to concept terms instead. -/
theorem c6_counterexample :
    ¬ ((coerceOutput ⟨some ⟨some (String.mk (List.replicate 200 'a')), none, none, none, none⟩, none⟩
          "2025-01-01").1.research.title.length ≤ 160) ∧
    (coerceOutput ⟨some ⟨some (String.mk (List.replicate 200 'a')), none, none, none, none⟩, none⟩
        "2025-01-01").1.research.title.length = 200 := by
  decide

/-- Witness for C6 at a concrete kept concept in both variants. -/
theorem c6_witness :
    ((ConceptCard.mk "T" "D").term.length ≤ 160 ∧ (ConceptCard.mk "T" "D").definition.length ≤ 1000) ∧
    ((ConceptCard.mk "T" "D").term.length ≤ 160 ∧ (ConceptCard.mk "T" "D").definition.length ≤ 900) :=
  ⟨c6_truncation_bounds.1 ⟨none, some [⟨some "T", some "D"⟩, ⟨some "U", some "E"⟩, ⟨some "V", some "F"⟩]⟩
      "2025-01-01" ⟨"T", "D"⟩ (by decide),
   c6_truncation_bounds.2 ⟨none, some [⟨some "T", some "D"⟩, ⟨some "U", some "E"⟩, ⟨some "V", some "F"⟩]⟩
      "2025-01-01" ⟨"T", "D"⟩ (by decide)⟩

/-! ## Claim C7 -/

/-- Field-by-field behaviour of the default-filling stage: an empty field is
replaced by its fixed default, a non-empty field (even an under-threshold
one) is kept verbatim, `source` is never touched, and the concepts list is
replaced exactly when it has fewer than three entries. -/
theorem applyDefaults_fields (o : Output) (date : String) :
    (o.research.title = "" → (applyDefaults o date).research.title = "Daily Brief — " ++ date) ∧
    (o.research.title ≠ "" → (applyDefaults o date).research.title = o.research.title) ∧
    (o.research.introduction = "" → (applyDefaults o date).research.introduction =
      "This brief summarizes a practical idea for improving attention and centeredness in daily work.") ∧
    (o.research.introduction ≠ "" → (applyDefaults o date).research.introduction = o.research.introduction) ∧
    (o.research.keyFindings = "" → (applyDefaults o date).research.keyFindings =
      "• Brief, regular practice compounds.\n• Labeling sensations reduces rumination.\n• Lowering cognitive load improves follow-through.") ∧
    (o.research.keyFindings ≠ "" → (applyDefaults o date).research.keyFindings = o.research.keyFindings) ∧
    (o.research.conclusion = "" → (applyDefaults o date).research.conclusion =
      "Pick one small action and do it today. Consistency beats intensity.") ∧
    (o.research.conclusion ≠ "" → (applyDefaults o date).research.conclusion = o.research.conclusion) ∧
    ((applyDefaults o date).research.source = o.research.source) ∧
    (o.concepts.length < 3 → (applyDefaults o date).concepts = defaultConcepts) ∧
    (3 ≤ o.concepts.length → (applyDefaults o date).concepts = o.concepts) := by
  obtain ⟨⟨t, i, k, c, s⟩, cs⟩ := o
  dsimp only [applyDefaults]
  refine ⟨?_, ?_, ?_, ?_, ?_, ?_, ?_, ?_, rfl, ?_, ?_⟩
  · intro h
    rw [if_pos h]
  · intro h
    rw [if_neg h]
  · intro h
    rw [if_pos h]
  · intro h
    rw [if_neg h]
  · intro h
    rw [if_pos h]
  · intro h
    rw [if_neg h]
  · intro h
    rw [if_pos h]
  · intro h
    rw [if_neg h]
  · intro h
    rw [if_pos h]
  · intro h
    rw [if_neg (by omega)]

/-- C7 (amended): the returned `valid` boolean is exactly the
pre-substitution judgment on the raw-coerced output, and when it is false the
coercer replaces every *empty* field with its fixed deterministic default
(and a concepts list shorter than three with the three fixed cards), while
keeping every non-empty — even under-threshold — field verbatim; `source` is
never replaced. -/
theorem c7_defaults_on_invalid : ∀ (ai : Candidate) (date : String),
    (coerceOutput ai date).2 = okCheck (coerceRaw ai) ∧
    (okCheck (coerceRaw ai) = false →
      ((coerceRaw ai).research.title = "" →
        (coerceOutput ai date).1.research.title = "Daily Brief — " ++ date) ∧
      ((coerceRaw ai).research.title ≠ "" →
        (coerceOutput ai date).1.research.title = (coerceRaw ai).research.title) ∧
      ((coerceRaw ai).research.introduction = "" →
        (coerceOutput ai date).1.research.introduction =
          "This brief summarizes a practical idea for improving attention and centeredness in daily work.") ∧
      ((coerceRaw ai).research.introduction ≠ "" →
        (coerceOutput ai date).1.research.introduction = (coerceRaw ai).research.introduction) ∧
      ((coerceRaw ai).research.keyFindings = "" →
        (coerceOutput ai date).1.research.keyFindings =
          "• Brief, regular practice compounds.\n• Labeling sensations reduces rumination.\n• Lowering cognitive load improves follow-through.") ∧
      ((coerceRaw ai).research.keyFindings ≠ "" →
        (coerceOutput ai date).1.research.keyFindings = (coerceRaw ai).research.keyFindings) ∧
      ((coerceRaw ai).research.conclusion = "" →
        (coerceOutput ai date).1.research.conclusion =
          "Pick one small action and do it today. Consistency beats intensity.") ∧
      ((coerceRaw ai).research.conclusion ≠ "" →
        (coerceOutput ai date).1.research.conclusion = (coerceRaw ai).research.conclusion) ∧
      ((coerceOutput ai date).1.research.source = (coerceRaw ai).research.source) ∧
      ((coerceRaw ai).concepts.length < 3 → (coerceOutput ai date).1.concepts = defaultConcepts) ∧
      (3 ≤ (coerceRaw ai).concepts.length → (coerceOutput ai date).1.concepts = (coerceRaw ai).concepts)) := by
  intro ai date
  refine ⟨rfl, ?_⟩
  intro hok
  have h1 : (coerceOutput ai date).1 = applyDefaults (coerceRaw ai) date := by
    show (if okCheck (coerceRaw ai) = true then coerceRaw ai
          else applyDefaults (coerceRaw ai) date, okCheck (coerceRaw ai)).1 =
      applyDefaults (coerceRaw ai) date
    rw [hok]
    rfl
  rw [h1]
  exact applyDefaults_fields (coerceRaw ai) date

/-- C7 (counterexample): an under-threshold but non-empty field is *not*
replaced by a default: an 11-character introduction (below the 60-character
minimum) fails validation yet survives verbatim in the output. -/
theorem c7_counterexample :
    (coerceOutput ⟨some ⟨none, some "short intro", none, none, none⟩, none⟩ "2025-01-01").2 = false ∧
    (coerceOutput ⟨some ⟨none, some "short intro", none, none, none⟩, none⟩
        "2025-01-01").1.research.introduction = "short intro" ∧
    "short intro" ≠
      "This brief summarizes a practical idea for improving attention and centeredness in daily work." := by
  decide

/-- Witness for C7: on a concrete invalid candidate, the empty title is
replaced by the dated default while the non-empty under-threshold
introduction is kept. -/
theorem c7_witness :
    (coerceOutput ⟨some ⟨none, some "tiny intro", none, none, none⟩, none⟩
        "2025-01-02").1.research.title = "Daily Brief — " ++ "2025-01-02" ∧
    (coerceOutput ⟨some ⟨none, some "tiny intro", none, none, none⟩, none⟩
        "2025-01-02").1.research.introduction =
      (coerceRaw ⟨some ⟨none, some "tiny intro", none, none, none⟩, none⟩).research.introduction :=
  ⟨((c7_defaults_on_invalid ⟨some ⟨none, some "tiny intro", none, none, none⟩, none⟩
      "2025-01-02").2 (by decide)).1 (by decide),
   (((c7_defaults_on_invalid ⟨some ⟨none, some "tiny intro", none, none, none⟩, none⟩
      "2025-01-02").2 (by decide)).2.2.2.1) (by decide)⟩

/-! ## Claim C5 -/

/-- Slicing to the same bound twice is slicing once. -/
theorem jsSlice_idem (n : Nat) (s : String) : jsSlice n (jsSlice n s) = jsSlice n s := by
  unfold jsSlice
  exact congrArg String.mk (by rw [List.take_take, Nat.min_self])

/-- The raw coercion never yields more than four concepts. -/
theorem coerceRaw_concepts_len_le (ai : Candidate) : (coerceRaw ai).concepts.length ≤ 4 := by
  unfold coerceRaw
  dsimp only
  cases ai.concepts with
  | none => decide
  | some cs =>
    rw [List.length_map, List.length_take]
    omega

/-- All five research fields of the raw coercion are trim-fixed. -/
theorem coerceRaw_trim_fixed (ai : Candidate) :
    jsTrim (coerceRaw ai).research.title = (coerceRaw ai).research.title ∧
    jsTrim (coerceRaw ai).research.introduction = (coerceRaw ai).research.introduction ∧
    jsTrim (coerceRaw ai).research.keyFindings = (coerceRaw ai).research.keyFindings ∧
    jsTrim (coerceRaw ai).research.conclusion = (coerceRaw ai).research.conclusion ∧
    jsTrim (coerceRaw ai).research.source = (coerceRaw ai).research.source := by
  unfold coerceRaw
  dsimp only
  exact ⟨jsTrim_idem _, jsTrim_idem _, jsTrim_idem _, jsTrim_idem _, jsTrim_idem _⟩

/-- Re-coercing an output whose fields are trim-fixed and within bounds is
the identity at the raw stage. -/
theorem coerceRaw_toCandidate (o : Output)
    (ht : jsTrim o.research.title = o.research.title)
    (hi : jsTrim o.research.introduction = o.research.introduction)
    (hk : jsTrim o.research.keyFindings = o.research.keyFindings)
    (hc : jsTrim o.research.conclusion = o.research.conclusion)
    (hs : jsTrim o.research.source = o.research.source)
    (hlen : o.concepts.length ≤ 4)
    (hcs : ∀ c ∈ o.concepts, jsTrim c.term = c.term ∧ c.term.length ≤ 160 ∧
      jsTrim c.definition = c.definition ∧ c.definition.length ≤ 1000) :
    coerceRaw (toCandidate o) = o := by
  obtain ⟨⟨t, i, k, c, s⟩, cs⟩ := o
  dsimp only [toCandidate, coerceRaw, Option.bind, Option.getD] at *
  refine congrArg₂ Output.mk ?_ ?_
  · rw [ht, hi, hk, hc, hs]
  · rw [List.take_of_length_le (by simpa using hlen), List.map_map]
    apply map_eq_self_of
    intro a ha
    obtain ⟨h1, h2, h3, h4⟩ := hcs a ha
    dsimp only [Function.comp]
    rw [h1, h3, jsSlice_of_length_le h2, jsSlice_of_length_le h4]

/-- C5 (amended): the coercion is idempotent on already-valid input *provided*
the truncated concept fields are still trim-fixed (truncation did not expose
trailing whitespace): re-coercing the output yields the same output with
`valid = true` again.  (Without that proviso the round trip can differ — see
the counterexample.) -/
theorem c5_roundtrip_idempotent (x : Candidate) (d : String)
    (hok : (coerceOutput x d).2 = true)
    (hfix : ∀ c ∈ (coerceOutput x d).1.concepts,
      jsTrim c.term = c.term ∧ jsTrim c.definition = c.definition) :
    coerceOutput (toCandidate (coerceOutput x d).1) d = ((coerceOutput x d).1, true) := by
  have hok' : okCheck (coerceRaw x) = true := hok
  have h1 : (coerceOutput x d).1 = coerceRaw x := by
    show (if okCheck (coerceRaw x) = true then coerceRaw x
          else applyDefaults (coerceRaw x) d, okCheck (coerceRaw x)).1 = coerceRaw x
    rw [hok']
    rfl
  rw [h1] at hfix ⊢
  have heq : coerceRaw (toCandidate (coerceRaw x)) = coerceRaw x := by
    obtain ⟨f1, f2, f3, f4, f5⟩ := coerceRaw_trim_fixed x
    apply coerceRaw_toCandidate (coerceRaw x) f1 f2 f3 f4 f5 (coerceRaw_concepts_len_le x)
    intro a ha
    obtain ⟨hb1, hb2⟩ := coerceRaw_concept_bound x a ha
    obtain ⟨hf1, hf2⟩ := hfix a ha
    exact ⟨hf1, hb1, hf2, hb2⟩
  show (if okCheck (coerceRaw (toCandidate (coerceRaw x))) = true
        then coerceRaw (toCandidate (coerceRaw x))
        else applyDefaults (coerceRaw (toCandidate (coerceRaw x))) d,
        okCheck (coerceRaw (toCandidate (coerceRaw x)))) = (coerceRaw x, true)
  rw [heq, hok']
  rfl

/-- Concept term whose 160-character truncation ends in a space. -/
def c5Term : String := String.mk (List.replicate 159 'a' ++ [' ', 'b'])

/-- A 60-character concept definition. -/
def c5Def : String := String.mk (List.replicate 60 'd')

/-- A fully valid candidate whose first concept term truncates to a string
with trailing whitespace. -/
def c5Cand : Candidate :=
  ⟨some ⟨some (String.mk (List.replicate 12 't')), some (String.mk (List.replicate 60 'i')),
      some (String.mk (List.replicate 100 'k')), some (String.mk (List.replicate 50 'c')), some "Src"⟩,
   some [⟨some c5Term, some c5Def⟩, ⟨some "b2", some c5Def⟩, ⟨some "b3", some c5Def⟩]⟩

set_option maxRecDepth 8000 in
/-- C5 (counterexample): the round trip `coerce(coerce(x).out) == coerce(x).out`
fails on a valid input: a concept term longer than 160 characters whose
truncation ends in a space is trimmed differently on the second pass. -/
theorem c5_counterexample :
    (coerceOutput c5Cand "2025-01-01").2 = true ∧
    (coerceOutput (toCandidate (coerceOutput c5Cand "2025-01-01").1) "2025-01-01").1 ≠
      (coerceOutput c5Cand "2025-01-01").1 := by
  decide

/-- Witness for C5 at a concrete valid candidate with whitespace-free
fields. -/
theorem c5_witness :
    coerceOutput (toCandidate (coerceOutput c4GoodCand "2025-01-01").1) "2025-01-01" =
      ((coerceOutput c4GoodCand "2025-01-01").1, true) :=
  c5_roundtrip_idempotent c4GoodCand "2025-01-01" (by decide) (by decide)

/-! ## Claim C9 -/

/-- A list ending in a non-whitespace character is right-trim-fixed. -/
theorem trimRightL_eq_self_concat {x : List Char} {a : Char} (h : isWS a = false) :
    trimRightL (x ++ [a]) = x ++ [a] := by
  unfold trimRightL
  rw [List.reverse_append]
  simp only [List.reverse_cons, List.reverse_nil, List.nil_append, List.singleton_append]
  rw [List.dropWhile_cons_of_neg (by simp [h])]
  simp [List.reverse_cons, List.reverse_reverse]

/-- Right-trimming drops a trailing whitespace character. -/
theorem trimRightL_concat_ws {y : List Char} {a : Char} (h : isWS a = true) :
    trimRightL (y ++ [a]) = trimRightL y := by
  unfold trimRightL
  rw [List.reverse_append]
  simp only [List.reverse_cons, List.reverse_nil, List.nil_append, List.singleton_append]
  rw [List.dropWhile_cons_of_pos (by simp [h])]

/-- Head of the left-trimmed payload is not whitespace. -/
theorem trimmed_head_not_ws {u : List Char} {c : Char} {r : List Char}
    (hcr : trimLeftL u = c :: r) : isWS c = false := by
  have hw : u.dropWhile isWS ≠ [] := by
    unfold trimLeftL at hcr
    simp [hcr]
  have h := List.head_dropWhile_not isWS u hw
  unfold trimLeftL at hcr
  simpa [hcr] using h

/-- Fence-stripping recovers the trimmed payload from the ```json wrapping. -/
theorem cleanFencesL_wrapJson (u : List Char) (c : Char) (r : List Char)
    (hcr : trimLeftL u = c :: r) (hcb : c ≠ backtickChar) :
    cleanFencesL ("```json\n".data ++ (u ++ "\n```".data)) = jsTrimL u := by
  have hw : u.dropWhile isWS ≠ [] := by
    unfold trimLeftL at hcr
    simp [hcr]
  have hcw : isWS c = false := trimmed_head_not_ws hcr
  have h1 : jsTrimL ("```json\n".data ++ (u ++ "\n```".data)) =
      "```json\n".data ++ (u ++ "\n```".data) := by
    unfold jsTrimL
    have hL : trimLeftL ("```json\n".data ++ (u ++ "\n```".data)) =
        "```json\n".data ++ (u ++ "\n```".data) := rfl
    rw [hL]
    have hsplit : "```json\n".data ++ (u ++ "\n```".data) =
        ("```json\n".data ++ (u ++ "\n``".data)) ++ [backtickChar] := by
      rw [show ("\n```".data : List Char) = "\n``".data ++ [backtickChar] from by decide]
      simp [List.append_assoc]
    rw [hsplit, trimRightL_eq_self_concat (by decide)]
  unfold cleanFencesL
  rw [h1]
  have h2 : stepJson ("```json\n".data ++ (u ++ "\n```".data)) =
      (c :: r) ++ "\n```".data := by
    show trimLeftL ('\n' :: (u ++ "\n```".data)) = (c :: r) ++ "\n```".data
    unfold trimLeftL
    rw [List.dropWhile_cons_of_pos (by decide)]
    rw [dropWhile_append_of_ne_nil hw]
    unfold trimLeftL at hcr
    rw [hcr]
  rw [h2]
  have h3 : stepBare ((c :: r) ++ "\n```".data) = (c :: r) ++ "\n```".data := by
    unfold stepBare
    rw [if_neg]
    intro h
    have h2h := congrArg List.head? h
    rw [show ("```".data : List Char) = backtickChar :: "``".data from by decide] at h2h
    simp only [List.cons_append, List.take_succ_cons, List.head?_cons, Option.some.injEq] at h2h
    exact hcb h2h
  rw [h3]
  have h4 : stepClose ((c :: r) ++ "\n```".data) = (c :: r) ++ ['\n'] := by
    unfold stepClose
    rw [List.reverse_append]
    rw [show (("\n```".data : List Char)).reverse = "```\n".data from by decide]
    show ('\n' :: (c :: r).reverse).reverse = (c :: r) ++ ['\n']
    rw [List.reverse_cons, List.reverse_reverse]
  rw [h4]
  unfold jsTrimL
  have h5 : trimLeftL ((c :: r) ++ ['\n']) = (c :: r) ++ ['\n'] := by
    show trimLeftL (c :: (r ++ ['\n'])) = c :: (r ++ ['\n'])
    unfold trimLeftL
    rw [List.dropWhile_cons_of_neg (by simp [hcw])]
  rw [h5, trimRightL_concat_ws (by decide), hcr]

/-- Fence-stripping recovers the trimmed payload from the bare ``` wrapping. -/
theorem cleanFencesL_wrapBare (u : List Char) (c : Char) (r : List Char)
    (hcr : trimLeftL u = c :: r) (_hcb : c ≠ backtickChar) :
    cleanFencesL ("```\n".data ++ (u ++ "\n```".data)) = jsTrimL u := by
  have hw : u.dropWhile isWS ≠ [] := by
    unfold trimLeftL at hcr
    simp [hcr]
  have hcw : isWS c = false := trimmed_head_not_ws hcr
  have h1 : jsTrimL ("```\n".data ++ (u ++ "\n```".data)) =
      "```\n".data ++ (u ++ "\n```".data) := by
    unfold jsTrimL
    have hL : trimLeftL ("```\n".data ++ (u ++ "\n```".data)) =
        "```\n".data ++ (u ++ "\n```".data) := rfl
    rw [hL]
    have hsplit : "```\n".data ++ (u ++ "\n```".data) =
        ("```\n".data ++ (u ++ "\n``".data)) ++ [backtickChar] := by
      rw [show ("\n```".data : List Char) = "\n``".data ++ [backtickChar] from by decide]
      simp [List.append_assoc]
    rw [hsplit, trimRightL_eq_self_concat (by decide)]
  unfold cleanFencesL
  rw [h1]
  have h2 : stepJson ("```\n".data ++ (u ++ "\n```".data)) =
      "```\n".data ++ (u ++ "\n```".data) := by
    unfold stepJson
    rw [if_neg]
    intro h
    rw [show toLowerL (("```\n".data ++ (u ++ "\n```".data)).take 7) =
        backtickChar :: backtickChar :: backtickChar :: Char.toLower '\n' ::
          toLowerL ((u ++ "\n```".data).take 3) from rfl] at h
    rw [show ("```json".data : List Char) =
        backtickChar :: backtickChar :: backtickChar :: 'j' :: "son".data from by decide] at h
    simp only [List.cons.injEq] at h
    exact absurd h.2.2.2.1 (by decide)
  rw [h2]
  have h3 : stepBare ("```\n".data ++ (u ++ "\n```".data)) =
      (c :: r) ++ "\n```".data := by
    show trimLeftL ('\n' :: (u ++ "\n```".data)) = (c :: r) ++ "\n```".data
    unfold trimLeftL
    rw [List.dropWhile_cons_of_pos (by decide)]
    rw [dropWhile_append_of_ne_nil hw]
    unfold trimLeftL at hcr
    rw [hcr]
  rw [h3]
  have h4 : stepClose ((c :: r) ++ "\n```".data) = (c :: r) ++ ['\n'] := by
    unfold stepClose
    rw [List.reverse_append]
    rw [show (("\n```".data : List Char)).reverse = "```\n".data from by decide]
    show ('\n' :: (c :: r).reverse).reverse = (c :: r) ++ ['\n']
    rw [List.reverse_cons, List.reverse_reverse]
  rw [h4]
  unfold jsTrimL
  have h5 : trimLeftL ((c :: r) ++ ['\n']) = (c :: r) ++ ['\n'] := by
    show trimLeftL (c :: (r ++ ['\n'])) = c :: (r ++ ['\n'])
    unfold trimLeftL
    rw [List.dropWhile_cons_of_neg (by simp [hcw])]
  rw [h5, trimRightL_concat_ws (by decide), hcr]

/-- C9 (confirmed): for every JSON payload `t` (any text whose trimmed form
is non-empty and does not begin with a backtick — true of all JSON values)
and every trim-insensitive parser, decoding the fence-wrapped form (either
the ```json or the bare ``` variant) through the fence-stripping step yields
the same parse result as parsing the unwrapped `t` directly. -/
theorem c9_fence_roundtrip : ∀ {V : Type} (parse : String → Option V),
    (∀ s, parse (jsTrim s) = parse s) →
    ∀ (t : String) (c : Char) (r : List Char),
      trimLeftL t.data = c :: r → c ≠ backtickChar →
      parse (cleanFences (fenceWrapJson t)) = parse t ∧
      parse (cleanFences (fenceWrapBare t)) = parse t := by
  intro V parse hp t c r hcr hcb
  have hj : cleanFences (fenceWrapJson t) = jsTrim t := by
    unfold cleanFences fenceWrapJson jsTrim
    rw [String.data_append, String.data_append, List.append_assoc]
    exact congrArg String.mk (cleanFencesL_wrapJson t.data c r hcr hcb)
  have hb : cleanFences (fenceWrapBare t) = jsTrim t := by
    unfold cleanFences fenceWrapBare jsTrim
    rw [String.data_append, String.data_append, List.append_assoc]
    exact congrArg String.mk (cleanFencesL_wrapBare t.data c r hcr hcb)
  rw [hj, hb]
  exact ⟨hp t, hp t⟩

/-- Witness for C9 with the trim-insensitive parser `s ↦ some (jsTrim s)` on
a concrete JSON array payload. -/
theorem c9_witness :
    some (jsTrim (cleanFences (fenceWrapJson "[1, 2, 3]"))) = some (jsTrim "[1, 2, 3]") ∧
    some (jsTrim (cleanFences (fenceWrapBare "[1, 2, 3]"))) = some (jsTrim "[1, 2, 3]") :=
  c9_fence_roundtrip (fun s => some (jsTrim s)) (fun s => congrArg some (jsTrim_idem s))
    "[1, 2, 3]" '[' "1, 2, 3]".data (by decide) (by decide)
